import Mathlib

/-! Self-relative pointer base.

A shallow embedding of `pmem::obj::experimental::self_relative_ptr_base`
(`include/libpmemobj++/experimental/self_relative_ptr_base.hpp`).

* An address (`uintptr_t`, `byte_ptr_type`, `this`) is a natural number below `2 ^ 64`.
* An offset (`difference_type = std::ptrdiff_t`) is an integer in `[-2 ^ 63, 2 ^ 63)`.
* Pointer and offset arithmetic wraps modulo `2 ^ 64`, as the compiled code does.
* The object is identified by the address it is stored at; the memory maps each storage
  address to the `offset` field stored there.
* `detail::conditional_add_to_tx` lives outside this header and is taken as a parameter.
-/

namespace pmem.obj.experimental

/-! ## Machine words -/

/-- Number of values of a pointer-width word (`uintptr_t`, `std::ptrdiff_t`: 64 bits). -/
def WORD : Nat := 2 ^ 64

/-- Conversion of an integer to `uintptr_t`: reduction modulo `2 ^ 64`. -/
def to_uintptr (x : Int) : Nat := (x % (2 : Int) ^ 64).toNat

/-- Conversion of an integer to `std::ptrdiff_t`: the two-complement representative
in `[-2 ^ 63, 2 ^ 63)`. -/
def to_ptrdiff (x : Int) : Int := (x + (2 : Int) ^ 63) % (2 : Int) ^ 64 - (2 : Int) ^ 63

/-- Difference `a - b` of two byte pointers, a `std::ptrdiff_t`. -/
def byte_ptr_sub (a b : Nat) : Int := to_ptrdiff ((a : Int) - (b : Int))

/-- Byte pointer `a` advanced by the signed amount `d`. -/
def byte_ptr_add (a : Nat) (d : Int) : Nat := to_uintptr ((a : Int) + d)

/-- The null address. -/
def nullptr : Nat := 0

/-! ## Read path of `self_relative_ptr_base` -/

/-- The constant `nullptr_offset`. -/
def nullptr_offset : Int := 0

/-- Method `is_null()`: `offset == nullptr_offset`. -/
def is_null (offset : Int) : Bool := offset == nullptr_offset

/-- Method `pointer_to_offset(void *ptr)` of the object stored at `this`. -/
def pointer_to_offset (this : Nat) (ptr : Nat) : Int :=
  if ptr = nullptr then nullptr_offset
  else to_ptrdiff (byte_ptr_sub ptr this - 1)

/-- Method `to_byte_pointer()` of the object stored at `this` holding `offset`:
`mask = is_null(); --mask; ptr = this + offset + 1; ptr &= mask`. -/
def to_byte_pointer (this : Nat) (offset : Int) : Nat :=
  let mask : Nat := to_uintptr ((if is_null offset then 1 else 0) - 1)
  let ptr : Nat := byte_ptr_add (byte_ptr_add this offset) 1
  ptr &&& mask

/-- Method `to_void_pointer()`: a cast of `to_byte_pointer()`. -/
def to_void_pointer (this : Nat) (offset : Int) : Nat := to_byte_pointer this offset

/-- Method `distance_between_self(ptr)` of the object stored at `this`: `&ptr - this`. -/
def distance_between_self (this : Nat) (ptr : Nat) : Int := byte_ptr_sub ptr this

/-! ## Constructors: the offset each one stores in the object at `this` -/

/-- Default constructor: `offset(nullptr_offset)`. -/
def ctor_default (_this : Nat) : Int := nullptr_offset

/-- Constructor from `std::nullptr_t`: `offset(nullptr_offset)`. -/
def ctor_nullptr (_this : Nat) : Int := nullptr_offset

/-- Constructor from `void *ptr`: `offset(pointer_to_offset(ptr))`. -/
def ctor_ptr (this : Nat) (ptr : Nat) : Int := pointer_to_offset this ptr

/-- Copy constructor from the object stored at `r` holding `r_offset`:
`offset(r.offset + distance_between_self(r))`. -/
def ctor_copy (this : Nat) (r : Nat) (r_offset : Int) : Int :=
  to_ptrdiff (r_offset + distance_between_self this r)

/-! ## Write path: memory, the transaction collaborator, and the mutating methods -/

/-- What a mutating method does, in order. -/
inductive Event where
  /-- A call `detail::conditional_add_to_tx(addr)`. -/
  | protect (addr : Nat)
  /-- A call of `to_byte_pointer()` on the object stored at `addr`. -/
  | resolve (addr : Nat)
  /-- A write of `offset` into the object stored at `addr`. -/
  | store (addr : Nat) (offset : Int)
  deriving DecidableEq, Repr

/-- The memory holding the pointer objects, with the record of what was done to it. -/
structure Machine where
  /-- The `offset` field of the object stored at each address. -/
  mem : Nat → Int
  /-- The events so far, oldest first. -/
  trace : List Event

/-- How a call ends: it returns, or `pmem::transaction_error` is thrown through it. -/
inductive Outcome where
  | returned
  | transaction_error
  deriving DecidableEq, Repr

/-- The transaction collaborator behind `detail::conditional_add_to_tx`, a parameter of
the model: given the events so far and the address to protect, `true` when the call
returns and `false` when it throws `pmem::transaction_error`. -/
abbrev Collaborator := List Event → Nat → Bool

/-- The call `detail::conditional_add_to_tx(addr)`. -/
def conditional_add_to_tx (tx : Collaborator) (addr : Nat) (m : Machine) :
    Outcome × Machine :=
  let m1 : Machine := { mem := m.mem, trace := m.trace ++ [Event.protect addr] }
  if tx m.trace addr then (Outcome.returned, m1) else (Outcome.transaction_error, m1)

/-- The write `offset = v` into the object stored at `addr`. -/
def store_offset (addr : Nat) (v : Int) (m : Machine) : Machine :=
  { mem := Function.update m.mem addr v, trace := m.trace ++ [Event.store addr v] }

/-- The call `to_byte_pointer()` on the object stored at `addr`. -/
def resolve (addr : Nat) (m : Machine) : Nat × Machine :=
  (to_byte_pointer addr (m.mem addr),
    { mem := m.mem, trace := m.trace ++ [Event.resolve addr] })

/-- Copy assignment `operator=(self_relative_ptr_base const &r)` on the object stored
at `this`. -/
def assign (tx : Collaborator) (this r : Nat) (m : Machine) : Outcome × Machine :=
  if this = r then (Outcome.returned, m)
  else
    match conditional_add_to_tx tx this m with
    | (Outcome.transaction_error, m1) => (Outcome.transaction_error, m1)
    | (Outcome.returned, m1) =>
      (Outcome.returned,
        store_offset this (to_ptrdiff (m1.mem r + distance_between_self this r)) m1)

/-- Assignment `operator=(std::nullptr_t &&)` on the object stored at `this`. -/
def assign_nullptr (tx : Collaborator) (this : Nat) (m : Machine) : Outcome × Machine :=
  match conditional_add_to_tx tx this m with
  | (Outcome.transaction_error, m1) => (Outcome.transaction_error, m1)
  | (Outcome.returned, m1) =>
    (Outcome.returned, store_offset this (pointer_to_offset this nullptr) m1)

/-- Method `swap(self_relative_ptr_base &other)` on the object stored at `this`. -/
def swap (tx : Collaborator) (this other : Nat) (m : Machine) : Outcome × Machine :=
  if this = other then (Outcome.returned, m)
  else
    match conditional_add_to_tx tx this m with
    | (Outcome.transaction_error, m1) => (Outcome.transaction_error, m1)
    | (Outcome.returned, m1) =>
      match conditional_add_to_tx tx other m1 with
      | (Outcome.transaction_error, m2) => (Outcome.transaction_error, m2)
      | (Outcome.returned, m2) =>
        let (first, m3) := resolve this m2
        let (second, m4) := resolve other m3
        let m5 := store_offset this (pointer_to_offset this second) m4
        let m6 := store_offset other (pointer_to_offset other first) m5
        (Outcome.returned, m6)

/-- The address `p` lies within the offset range of the storage address `s`: the biased
distance `p - s - 1` fits `std::ptrdiff_t`. -/
def in_offset_range (s p : Nat) : Prop :=
  -(2 : Int) ^ 63 ≤ (p : Int) - (s : Int) - 1 ∧ (p : Int) - (s : Int) - 1 < (2 : Int) ^ 63

instance (s p : Nat) : Decidable (in_offset_range s p) := by
  unfold in_offset_range; infer_instance

/-- A collaborator that registers every address. -/
def tx_ok : Collaborator := fun _ _ => true

/-- A collaborator that fails every registration. -/
def tx_fail : Collaborator := fun _ _ => false

/-- A collaborator that registers every address but `bad`. -/
def tx_fail_at (bad : Nat) : Collaborator := fun _ addr => addr != bad

/-- A memory holding offset `oa` at `sa`, `ob` at `sb` and zero elsewhere, nothing done
to it yet. -/
def machine2 (sa : Nat) (oa : Int) (sb : Nat) (ob : Int) : Machine :=
  { mem := fun a => if a = sa then oa else if a = sb then ob else 0, trace := [] }

/-- The decode the comment in `to_byte_pointer()` gives as equal to the mask-based code:
`if (is_null()) return nullptr; return this + offset + 1;`. -/
def to_byte_pointer_branching (this : Nat) (offset : Int) : Nat :=
  if is_null offset then nullptr
  else byte_ptr_add (byte_ptr_add this offset) 1

/-- Static method `distance_between(first, second)` on the objects stored at `first` and
`second`: `second.to_byte_pointer() - first.to_byte_pointer()`. -/
def distance_between (first : Nat) (first_offset : Int) (second : Nat)
    (second_offset : Int) : Int :=
  byte_ptr_sub (to_byte_pointer second second_offset) (to_byte_pointer first first_offset)

/-- The integer `x` is a value of `std::ptrdiff_t`. -/
def is_ptrdiff (x : Int) : Prop := -(2 : Int) ^ 63 ≤ x ∧ x < (2 : Int) ^ 63

instance (x : Int) : Decidable (is_ptrdiff x) := by
  unfold is_ptrdiff; infer_instance

/-- The addresses of the `detail::conditional_add_to_tx` calls in a record, in order. -/
def protect_calls : List Event → List Nat
  | [] => []
  | Event.protect a :: rest => a :: protect_calls rest
  | Event.resolve _ :: rest => protect_calls rest
  | Event.store _ _ :: rest => protect_calls rest

/-- The events a call added to the record of `before`. -/
def events_added (before after : Machine) : List Event :=
  after.trace.drop before.trace.length

/-! ## Arithmetic of the machine words -/

theorem to_uintptr_lt (x : Int) : to_uintptr x < 2 ^ 64 := by
  unfold to_uintptr; omega

theorem to_ptrdiff_bounds (x : Int) :
    -(2 : Int) ^ 63 ≤ to_ptrdiff x ∧ to_ptrdiff x < (2 : Int) ^ 63 := by
  unfold to_ptrdiff; omega

theorem to_byte_pointer_of_null (s : Nat) : to_byte_pointer s 0 = 0 := by
  simp [to_byte_pointer, is_null, nullptr_offset, to_uintptr]

theorem to_byte_pointer_of_ne (s : Nat) (o : Int) (h : o ≠ 0) :
    to_byte_pointer s o = to_uintptr ((s : Int) + o + 1) := by
  have hmask : to_uintptr (0 - 1) = 2 ^ 64 - 1 := by decide
  unfold to_byte_pointer
  simp only [is_null, nullptr_offset, beq_iff_eq, h, if_false]
  rw [hmask, Nat.and_pow_two_sub_one_eq_mod]
  unfold byte_ptr_add to_uintptr
  omega

theorem to_byte_pointer_lt (s : Nat) (o : Int) : to_byte_pointer s o < 2 ^ 64 := by
  by_cases h : o = 0
  · subst h; rw [to_byte_pointer_of_null]; decide
  · rw [to_byte_pointer_of_ne s o h]; exact to_uintptr_lt _

theorem pointer_to_offset_of_null (s : Nat) : pointer_to_offset s 0 = 0 := by
  simp [pointer_to_offset, nullptr, nullptr_offset]

theorem pointer_to_offset_of_ne (s p : Nat) (h : p ≠ 0) :
    pointer_to_offset s p = to_ptrdiff ((p : Int) - (s : Int) - 1) := by
  unfold pointer_to_offset
  simp only [nullptr, h, if_false]
  unfold byte_ptr_sub to_ptrdiff
  omega

/-- Decoding what `pointer_to_offset` encoded gives the address back, for every address
but the one right after the storage address. -/
theorem to_byte_pointer_pointer_to_offset (s p : Nat) (hs : s < 2 ^ 64) (hp : p < 2 ^ 64)
    (hne : p ≠ s + 1) : to_byte_pointer s (pointer_to_offset s p) = p := by
  by_cases h0 : p = 0
  · subst h0; rw [pointer_to_offset_of_null, to_byte_pointer_of_null]
  · rw [pointer_to_offset_of_ne s p h0]
    have hnz : to_ptrdiff ((p : Int) - (s : Int) - 1) ≠ 0 := by
      unfold to_ptrdiff; omega
    rw [to_byte_pointer_of_ne _ _ hnz]
    unfold to_uintptr to_ptrdiff
    omega

/-! ## Encoding and decoding -/

/-- C1, counterexample: the address right after the storage address `0x1000` is within
its offset range, yet a pointer constructed there from it resolves to the null address. -/
theorem roundtrip_fails_next_byte :
    0x1000 < WORD ∧ 0x1001 < WORD ∧ in_offset_range 0x1000 0x1001 ∧
      ctor_ptr 0x1000 0x1001 = 0 ∧
      to_byte_pointer 0x1000 (ctor_ptr 0x1000 0x1001) = 0 ∧
      to_byte_pointer 0x1000 (ctor_ptr 0x1000 0x1001) ≠ 0x1001 := by
  decide

/-- C1 (amended): for every storage address `s` and every address `p` within the offset
range of `s` other than `s + 1`, the pointer constructor at `s` from `p` followed by
`to_byte_pointer()` at `s` yields exactly `p`. -/
theorem roundtrip_ptr_ctor (s p : Nat) (hs : s < WORD) (hp : p < WORD)
    (_hr : in_offset_range s p) (hne : p ≠ s + 1) :
    to_byte_pointer s (ctor_ptr s p) = p :=
  to_byte_pointer_pointer_to_offset s p hs hp hne

theorem roundtrip_ptr_ctor_witness :
    in_offset_range 0x1000 0x1040 ∧ 0x1040 ≠ 0x1000 + 1 ∧
      to_byte_pointer 0x1000 (ctor_ptr 0x1000 0x1040) = 0x1040 :=
  ⟨by decide, by decide,
    roundtrip_ptr_ctor 0x1000 0x1040 (by decide) (by decide) (by decide) (by decide)⟩

/-! ## Relocation -/

/-- C2, counterexample: the pointer at `0x2000` targeting `0x1000` stores `-0x1001`; with
both displaced by `-0x1000` the target is the null address and the stored offset is `0`. -/
theorem relocation_fails_displaced_null :
    (0x1000 : Nat) ≠ nullptr ∧
      byte_ptr_add 0x2000 (-0x1000) = 0x1000 ∧ byte_ptr_add 0x1000 (-0x1000) = nullptr ∧
      ctor_ptr 0x2000 0x1000 = -0x1001 ∧
      ctor_ptr (byte_ptr_add 0x2000 (-0x1000)) (byte_ptr_add 0x1000 (-0x1000)) = 0 ∧
      ctor_ptr (byte_ptr_add 0x2000 (-0x1000)) (byte_ptr_add 0x1000 (-0x1000)) ≠
        ctor_ptr 0x2000 0x1000 := by
  decide

/-- C2 (amended): for every storage address `s`, non-null target `p` and displacement `d`
with `p + d` non-null as well, constructing at `s` from `p` and constructing at `s + d`
from `p + d` store the same offset; for every non-null offset `o`, `to_byte_pointer()`
at `s + d` is `to_byte_pointer()` at `s` plus `d`; and a null offset resolves to the null
address at every storage address. -/
theorem relocation_invariance (s p : Nat) (d : Int) (hp : p ≠ nullptr)
    (hpd : byte_ptr_add p d ≠ nullptr) :
    ctor_ptr (byte_ptr_add s d) (byte_ptr_add p d) = ctor_ptr s p ∧
      (∀ o : Int, o ≠ nullptr_offset →
        to_byte_pointer (byte_ptr_add s d) o = byte_ptr_add (to_byte_pointer s o) d) ∧
      (∀ t : Nat, to_byte_pointer t nullptr_offset = nullptr) := by
  refine ⟨?_, ?_, ?_⟩
  · unfold ctor_ptr
    rw [pointer_to_offset_of_ne _ _ hpd, pointer_to_offset_of_ne _ _ hp]
    unfold byte_ptr_add to_uintptr to_ptrdiff
    omega
  · intro o ho
    rw [to_byte_pointer_of_ne _ _ ho, to_byte_pointer_of_ne _ _ ho]
    unfold byte_ptr_add to_uintptr
    omega
  · intro t
    exact to_byte_pointer_of_null t

theorem relocation_invariance_witness :
    (0x1040 : Nat) ≠ nullptr ∧ byte_ptr_add 0x1040 0x7000 ≠ nullptr ∧
      ctor_ptr (byte_ptr_add 0x1000 0x7000) (byte_ptr_add 0x1040 0x7000) =
        ctor_ptr 0x1000 0x1040 ∧
      to_byte_pointer (byte_ptr_add 0x1000 0x7000) 0x3F =
        byte_ptr_add (to_byte_pointer 0x1000 0x3F) 0x7000 :=
  ⟨by decide, by decide,
    (relocation_invariance 0x1000 0x1040 0x7000 (by decide) (by decide)).1,
    (relocation_invariance 0x1000 0x1040 0x7000 (by decide) (by decide)).2.1 0x3F
      (by decide)⟩

/-! ## Copy construction -/

/-- C3, counterexample: the pointer at `0x1000` holding offset `0x1000` resolves to
`0x2001`; its copy constructed at `0x2000` stores offset `0` and resolves to the null
address. -/
theorem copy_fails_next_byte :
    to_byte_pointer 0x1000 0x1000 = 0x2001 ∧
      ctor_copy 0x2000 0x1000 0x1000 = 0 ∧
      to_byte_pointer 0x2000 (ctor_copy 0x2000 0x1000 0x1000) = nullptr ∧
      to_byte_pointer 0x2000 (ctor_copy 0x2000 0x1000 0x1000) ≠
        to_byte_pointer 0x1000 0x1000 := by
  decide

/-- C3 (amended): for every non-null pointer `A` stored at `sa` resolving to `T`, and
every storage address `sb` with `T ≠ sb + 1`, the pointer the copy constructor produces
at `sb` from `A` resolves to `T` as well; `A` at `0x1000` with offset `0x3F` copied to
`0x2000` gets offset `0x3F - 0x1000` and still resolves to `0x1040`. -/
theorem copy_ctor_rebases (sa sb : Nat) (o : Int) (hsb : sb < WORD)
    (hnull : is_null o = false) (hT : to_byte_pointer sa o ≠ sb + 1) :
    to_byte_pointer sb (ctor_copy sb sa o) = to_byte_pointer sa o ∧
      (to_byte_pointer 0x1000 0x3F = 0x1040 ∧
        ctor_copy 0x2000 0x1000 0x3F = 0x3F - 0x1000 ∧
        to_byte_pointer 0x2000 (ctor_copy 0x2000 0x1000 0x3F) = 0x1040) := by
  refine ⟨?_, by decide⟩
  have ho : o ≠ 0 := by
    intro h; subst h; simp [is_null, nullptr_offset] at hnull
  have hw : sb < 2 ^ 64 := hsb
  rw [to_byte_pointer_of_ne _ _ ho] at hT ⊢
  by_cases hc : ctor_copy sb sa o = 0
  · rw [hc, to_byte_pointer_of_null]
    unfold ctor_copy distance_between_self byte_ptr_sub to_ptrdiff at hc
    unfold to_uintptr at hT ⊢
    omega
  · rw [to_byte_pointer_of_ne _ _ hc]
    unfold ctor_copy distance_between_self byte_ptr_sub to_ptrdiff to_uintptr
    omega

theorem copy_ctor_rebases_witness :
    is_null 0x3F = false ∧ to_byte_pointer 0x1000 0x3F ≠ 0x2000 + 1 ∧
      to_byte_pointer 0x2000 (ctor_copy 0x2000 0x1000 0x3F) =
        to_byte_pointer 0x1000 0x3F :=
  ⟨by decide, by decide,
    (copy_ctor_rebases 0x1000 0x2000 0x3F (by decide) (by decide) (by decide)).1⟩

/-! ## The mutating methods, case by case -/

theorem swap_of_protected (tx : Collaborator) (a b : Nat) (m : Machine) (hne : a ≠ b)
    (h1 : tx m.trace a = true) (h2 : tx (m.trace ++ [Event.protect a]) b = true) :
    swap tx a b m =
      (Outcome.returned,
        { mem := Function.update
            (Function.update m.mem a (pointer_to_offset a (to_byte_pointer b (m.mem b))))
            b (pointer_to_offset b (to_byte_pointer a (m.mem a))),
          trace := m.trace ++ [Event.protect a] ++ [Event.protect b] ++ [Event.resolve a]
            ++ [Event.resolve b]
            ++ [Event.store a (pointer_to_offset a (to_byte_pointer b (m.mem b)))]
            ++ [Event.store b (pointer_to_offset b (to_byte_pointer a (m.mem a)))] }) := by
  simp [swap, hne, conditional_add_to_tx, h1, h2, resolve, store_offset]

theorem swap_of_first_refused (tx : Collaborator) (a b : Nat) (m : Machine) (hne : a ≠ b)
    (h1 : tx m.trace a = false) :
    swap tx a b m =
      (Outcome.transaction_error,
        { mem := m.mem, trace := m.trace ++ [Event.protect a] }) := by
  simp [swap, hne, conditional_add_to_tx, h1]

theorem swap_of_second_refused (tx : Collaborator) (a b : Nat) (m : Machine) (hne : a ≠ b)
    (h1 : tx m.trace a = true) (h2 : tx (m.trace ++ [Event.protect a]) b = false) :
    swap tx a b m =
      (Outcome.transaction_error,
        { mem := m.mem, trace := m.trace ++ [Event.protect a] ++ [Event.protect b] }) := by
  simp [swap, hne, conditional_add_to_tx, h1, h2]

theorem assign_of_protected (tx : Collaborator) (a r : Nat) (m : Machine) (hne : a ≠ r)
    (h : tx m.trace a = true) :
    assign tx a r m =
      (Outcome.returned,
        { mem := Function.update m.mem a (to_ptrdiff (m.mem r + distance_between_self a r)),
          trace := m.trace ++ [Event.protect a]
            ++ [Event.store a (to_ptrdiff (m.mem r + distance_between_self a r))] }) := by
  simp [assign, hne, conditional_add_to_tx, h, store_offset]

theorem assign_of_refused (tx : Collaborator) (a r : Nat) (m : Machine) (hne : a ≠ r)
    (h : tx m.trace a = false) :
    assign tx a r m =
      (Outcome.transaction_error,
        { mem := m.mem, trace := m.trace ++ [Event.protect a] }) := by
  simp [assign, hne, conditional_add_to_tx, h]

theorem assign_nullptr_of_protected (tx : Collaborator) (a : Nat) (m : Machine)
    (h : tx m.trace a = true) :
    assign_nullptr tx a m =
      (Outcome.returned,
        { mem := Function.update m.mem a 0,
          trace := m.trace ++ [Event.protect a] ++ [Event.store a 0] }) := by
  simp [assign_nullptr, conditional_add_to_tx, h, store_offset, pointer_to_offset,
    nullptr_offset]

theorem assign_nullptr_of_refused (tx : Collaborator) (a : Nat) (m : Machine)
    (h : tx m.trace a = false) :
    assign_nullptr tx a m =
      (Outcome.transaction_error,
        { mem := m.mem, trace := m.trace ++ [Event.protect a] }) := by
  simp [assign_nullptr, conditional_add_to_tx, h]

/-! ## Swap -/

/-- C4, counterexample: `A` at `0x1000` resolves to `0x1040` and `B` at `0x2000` resolves
to `0x1001`, every protect call succeeds, and after `A.swap(B)` the pointer `A` stores
offset `0` and resolves to the null address, not to `0x1001`. -/
theorem swap_fails_next_byte :
    to_byte_pointer 0x2000 ((machine2 0x1000 0x3F 0x2000 (-0x1000)).mem 0x2000) = 0x1001 ∧
      (swap tx_ok 0x1000 0x2000 (machine2 0x1000 0x3F 0x2000 (-0x1000))).1
        = Outcome.returned ∧
      (swap tx_ok 0x1000 0x2000 (machine2 0x1000 0x3F 0x2000 (-0x1000))).2.mem 0x1000 = 0 ∧
      to_byte_pointer 0x1000
        ((swap tx_ok 0x1000 0x2000 (machine2 0x1000 0x3F 0x2000 (-0x1000))).2.mem 0x1000)
        ≠ to_byte_pointer 0x2000 ((machine2 0x1000 0x3F 0x2000 (-0x1000)).mem 0x2000) := by
  decide

/-- C4 (amended): for every two distinct pointers `A` (stored at `sa`, resolving to `Ta`)
and `B` (stored at `sb`, resolving to `Tb`), when both protect calls succeed, `A.swap(B)`
returns having stored in `A` the offset recomputed at `sa` from `Tb` and in `B` the offset
recomputed at `sb` from `Ta`; after it `A` resolves to `Tb` when `Tb ≠ sa + 1`, and `B`
resolves to `Ta` when `Ta ≠ sb + 1`. -/
theorem swap_exchanges_targets (tx : Collaborator) (sa sb : Nat) (m : Machine)
    (hsa : sa < WORD) (hsb : sb < WORD) (hne : sa ≠ sb)
    (h1 : tx m.trace sa = true) (h2 : tx (m.trace ++ [Event.protect sa]) sb = true) :
    (swap tx sa sb m).1 = Outcome.returned ∧
      (swap tx sa sb m).2.mem sa = pointer_to_offset sa (to_byte_pointer sb (m.mem sb)) ∧
      (swap tx sa sb m).2.mem sb = pointer_to_offset sb (to_byte_pointer sa (m.mem sa)) ∧
      (to_byte_pointer sb (m.mem sb) ≠ sa + 1 →
        to_byte_pointer sa ((swap tx sa sb m).2.mem sa) = to_byte_pointer sb (m.mem sb)) ∧
      (to_byte_pointer sa (m.mem sa) ≠ sb + 1 →
        to_byte_pointer sb ((swap tx sa sb m).2.mem sb) = to_byte_pointer sa (m.mem sa)) := by
  rw [swap_of_protected tx sa sb m hne h1 h2]
  have ha : Function.update
      (Function.update m.mem sa (pointer_to_offset sa (to_byte_pointer sb (m.mem sb))))
      sb (pointer_to_offset sb (to_byte_pointer sa (m.mem sa))) sa
      = pointer_to_offset sa (to_byte_pointer sb (m.mem sb)) := by
    rw [Function.update_noteq hne, Function.update_same]
  have hb : Function.update
      (Function.update m.mem sa (pointer_to_offset sa (to_byte_pointer sb (m.mem sb))))
      sb (pointer_to_offset sb (to_byte_pointer sa (m.mem sa))) sb
      = pointer_to_offset sb (to_byte_pointer sa (m.mem sa)) := by
    rw [Function.update_same]
  dsimp only
  rw [ha, hb]
  refine ⟨rfl, rfl, rfl, ?_, ?_⟩
  · intro hT
    exact to_byte_pointer_pointer_to_offset sa _ hsa (to_byte_pointer_lt _ _) hT
  · intro hT
    exact to_byte_pointer_pointer_to_offset sb _ hsb (to_byte_pointer_lt _ _) hT

theorem swap_exchanges_targets_witness :
    (0x1000 : Nat) ≠ 0x2000 ∧
      to_byte_pointer 0x1000 ((machine2 0x1000 0x3F 0x2000 0x5).mem 0x1000) = 0x1040 ∧
      to_byte_pointer 0x2000 ((machine2 0x1000 0x3F 0x2000 0x5).mem 0x2000) = 0x2006 ∧
      to_byte_pointer 0x1000
        ((swap tx_ok 0x1000 0x2000 (machine2 0x1000 0x3F 0x2000 0x5)).2.mem 0x1000)
        = to_byte_pointer 0x2000 ((machine2 0x1000 0x3F 0x2000 0x5).mem 0x2000) ∧
      to_byte_pointer 0x2000
        ((swap tx_ok 0x1000 0x2000 (machine2 0x1000 0x3F 0x2000 0x5)).2.mem 0x2000)
        = to_byte_pointer 0x1000 ((machine2 0x1000 0x3F 0x2000 0x5).mem 0x1000) :=
  ⟨by decide, by decide, by decide,
    (swap_exchanges_targets tx_ok 0x1000 0x2000 (machine2 0x1000 0x3F 0x2000 0x5)
      (by decide) (by decide) (by decide) rfl rfl).2.2.2.1 (by decide),
    (swap_exchanges_targets tx_ok 0x1000 0x2000 (machine2 0x1000 0x3F 0x2000 0x5)
      (by decide) (by decide) (by decide) rfl rfl).2.2.2.2 (by decide)⟩

/-! ## Null pointers -/

/-- C5: for every storage address `s`, the offset of a pointer at `s` that was
default-constructed, constructed from `nullptr`, or assigned `nullptr` with the protect
call succeeding (an assignment that returns) is `0`, `is_null()` is true on it, and
`to_byte_pointer()` and `to_void_pointer()` return the null address. -/
theorem null_roundtrip (tx : Collaborator) (s : Nat) (m : Machine)
    (h : tx m.trace s = true) :
    (assign_nullptr tx s m).1 = Outcome.returned ∧
      ∀ o : Int,
        (o = ctor_default s ∨ o = ctor_nullptr s ∨ o = (assign_nullptr tx s m).2.mem s) →
        o = 0 ∧ is_null o = true ∧ to_byte_pointer s o = nullptr ∧
          to_void_pointer s o = nullptr := by
  rw [assign_nullptr_of_protected tx s m h]
  refine ⟨rfl, ?_⟩
  intro o ho
  have h0 : o = 0 := by
    rcases ho with ho | ho | ho
    · exact ho
    · exact ho
    · rw [ho]; exact Function.update_same s 0 m.mem
  subst h0
  exact ⟨rfl, rfl, to_byte_pointer_of_null s, to_byte_pointer_of_null s⟩

theorem null_roundtrip_witness :
    tx_ok (machine2 0x1000 0x3F 0x2000 0x5).trace 0x1000 = true ∧
      (assign_nullptr tx_ok 0x1000 (machine2 0x1000 0x3F 0x2000 0x5)).2.mem 0x1000 = 0 ∧
      to_byte_pointer 0x1000
        ((assign_nullptr tx_ok 0x1000 (machine2 0x1000 0x3F 0x2000 0x5)).2.mem 0x1000)
        = nullptr :=
  ⟨rfl,
    ((null_roundtrip tx_ok 0x1000 (machine2 0x1000 0x3F 0x2000 0x5) rfl).2
      _ (Or.inr (Or.inr rfl))).1,
    ((null_roundtrip tx_ok 0x1000 (machine2 0x1000 0x3F 0x2000 0x5) rfl).2
      _ (Or.inr (Or.inr rfl))).2.2.1⟩

/-! ## Failed protection -/

/-- C6: for every pointer at any storage address with any prior offset, if
`conditional_add_to_tx` fails on it, then copy assignment from a different pointer and
`nullptr` assignment both end in `pmem::transaction_error` and leave the stored offset of
the destination (and the rest of the memory) as it was before the call. -/
theorem failed_protect_aborts_assign (tx : Collaborator) (this : Nat) (m : Machine)
    (h : tx m.trace this = false) :
    (∀ r : Nat, r ≠ this →
        (assign tx this r m).1 = Outcome.transaction_error ∧
          (assign tx this r m).2.mem this = m.mem this ∧
          (assign tx this r m).2.mem = m.mem) ∧
      (assign_nullptr tx this m).1 = Outcome.transaction_error ∧
      (assign_nullptr tx this m).2.mem this = m.mem this ∧
      (assign_nullptr tx this m).2.mem = m.mem := by
  refine ⟨?_, ?_⟩
  · intro r hr
    rw [assign_of_refused tx this r m (Ne.symm hr) h]
    exact ⟨rfl, rfl, rfl⟩
  · rw [assign_nullptr_of_refused tx this m h]
    exact ⟨rfl, rfl, rfl⟩

theorem failed_protect_aborts_assign_witness :
    tx_fail (machine2 0x1000 0x3F 0x2000 0x5).trace 0x2000 = false ∧
      (assign tx_fail 0x2000 0x1000 (machine2 0x1000 0x3F 0x2000 0x5)).1
        = Outcome.transaction_error ∧
      (assign tx_fail 0x2000 0x1000 (machine2 0x1000 0x3F 0x2000 0x5)).2.mem 0x2000
        = (machine2 0x1000 0x3F 0x2000 0x5).mem 0x2000 ∧
      (assign_nullptr tx_fail 0x2000 (machine2 0x1000 0x3F 0x2000 0x5)).1
        = Outcome.transaction_error ∧
      (assign_nullptr tx_fail 0x2000 (machine2 0x1000 0x3F 0x2000 0x5)).2.mem 0x2000
        = (machine2 0x1000 0x3F 0x2000 0x5).mem 0x2000 :=
  ⟨rfl,
    ((failed_protect_aborts_assign tx_fail 0x2000 (machine2 0x1000 0x3F 0x2000 0x5) rfl).1
      0x1000 (by decide)).1,
    ((failed_protect_aborts_assign tx_fail 0x2000 (machine2 0x1000 0x3F 0x2000 0x5) rfl).1
      0x1000 (by decide)).2.1,
    (failed_protect_aborts_assign tx_fail 0x2000 (machine2 0x1000 0x3F 0x2000 0x5) rfl).2.1,
    (failed_protect_aborts_assign tx_fail 0x2000 (machine2 0x1000 0x3F 0x2000 0x5)
      rfl).2.2.1⟩

/-- C7: for every two distinct pointers `A` and `B`, if the protect call on `A` fails, or
the protect call on `A` succeeds and the protect call on `B` fails, then `A.swap(B)` ends
in `pmem::transaction_error` and leaves the stored offsets of both `A` and `B` (and the
rest of the memory) unchanged. -/
theorem failed_protect_aborts_swap (tx : Collaborator) (sa sb : Nat) (m : Machine)
    (hne : sa ≠ sb)
    (h : tx m.trace sa = false ∨
      (tx m.trace sa = true ∧ tx (m.trace ++ [Event.protect sa]) sb = false)) :
    (swap tx sa sb m).1 = Outcome.transaction_error ∧
      (swap tx sa sb m).2.mem sa = m.mem sa ∧
      (swap tx sa sb m).2.mem sb = m.mem sb ∧
      (swap tx sa sb m).2.mem = m.mem := by
  rcases h with h1 | ⟨h1, h2⟩
  · rw [swap_of_first_refused tx sa sb m hne h1]
    exact ⟨rfl, rfl, rfl, rfl⟩
  · rw [swap_of_second_refused tx sa sb m hne h1 h2]
    exact ⟨rfl, rfl, rfl, rfl⟩

theorem failed_protect_aborts_swap_witness :
    (0x1000 : Nat) ≠ 0x2000 ∧
      tx_fail_at 0x2000 (machine2 0x1000 0x3F 0x2000 0x5).trace 0x1000 = true ∧
      tx_fail_at 0x2000
        ((machine2 0x1000 0x3F 0x2000 0x5).trace ++ [Event.protect 0x1000]) 0x2000 = false ∧
      (swap (tx_fail_at 0x2000) 0x1000 0x2000 (machine2 0x1000 0x3F 0x2000 0x5)).1
        = Outcome.transaction_error ∧
      (swap (tx_fail_at 0x2000) 0x1000 0x2000 (machine2 0x1000 0x3F 0x2000 0x5)).2.mem 0x1000
        = 0x3F ∧
      (swap (tx_fail_at 0x2000) 0x1000 0x2000 (machine2 0x1000 0x3F 0x2000 0x5)).2.mem 0x2000
        = 0x5 :=
  ⟨by decide, by decide, by decide,
    (failed_protect_aborts_swap (tx_fail_at 0x2000) 0x1000 0x2000
      (machine2 0x1000 0x3F 0x2000 0x5) (by decide) (Or.inr ⟨by decide, by decide⟩)).1,
    (failed_protect_aborts_swap (tx_fail_at 0x2000) 0x1000 0x2000
      (machine2 0x1000 0x3F 0x2000 0x5) (by decide) (Or.inr ⟨by decide, by decide⟩)).2.1,
    (failed_protect_aborts_swap (tx_fail_at 0x2000) 0x1000 0x2000
      (machine2 0x1000 0x3F 0x2000 0x5) (by decide) (Or.inr ⟨by decide, by decide⟩)).2.2.1⟩

/-! ## Self-assignment and self-swap -/

/-- C8: for every pointer `A` at any storage address with any offset, null or not, and
every collaborator, also one that fails every registration, the copy assignment `A = A`
returns, leaves the raw offset and the resolved target of `A` (and the rest of the memory)
unchanged, and adds no event to the record: no call to the transaction collaborator. -/
theorem self_assign_noop (tx : Collaborator) (s : Nat) (m : Machine) :
    (assign tx s s m).1 = Outcome.returned ∧
      (assign tx s s m).2.mem s = m.mem s ∧
      to_byte_pointer s ((assign tx s s m).2.mem s) = to_byte_pointer s (m.mem s) ∧
      (assign tx s s m).2.mem = m.mem ∧
      (assign tx s s m).2.trace = m.trace ∧
      (∀ a : Nat, Event.protect a ∉ (assign tx s s m).2.trace.drop m.trace.length) ∧
      (assign tx_fail s s m).1 = Outcome.returned := by
  simp [assign]

/-- C9: for every pointer `A` at any storage address with any offset, and every
collaborator, `A.swap(A)` returns, leaves the raw offset of `A` (and the rest of the
memory) unchanged, and adds no event to the record: no call to the transaction
collaborator. -/
theorem self_swap_noop (tx : Collaborator) (s : Nat) (m : Machine) :
    (swap tx s s m).1 = Outcome.returned ∧
      (swap tx s s m).2.mem s = m.mem s ∧
      (swap tx s s m).2.mem = m.mem ∧
      (swap tx s s m).2.trace = m.trace ∧
      (∀ a : Nat, Event.protect a ∉ (swap tx s s m).2.trace.drop m.trace.length) ∧
      (swap tx_fail s s m).1 = Outcome.returned := by
  simp [swap]

/-! ## Construction from an absolute address -/

/-- C10: for every storage address `s` and address `p`, the pointer constructor at `s`
stores offset `0` if `p` is null and `p - s - 1` otherwise: the `std::ptrdiff_t` value of
`p - s - 1`, which is the integer `p - s - 1` itself whenever that fits the type. For
`s = 0x1000` and `p = 0x1040` the stored offset is `0x3F`, `is_null()` is false and
`to_byte_pointer()` is `0x1040`. -/
theorem ptr_ctor_stores_biased_distance (s p : Nat) :
    (p = nullptr → ctor_ptr s p = 0) ∧
      (p ≠ nullptr → ctor_ptr s p = to_ptrdiff ((p : Int) - (s : Int) - 1)) ∧
      (p ≠ nullptr → in_offset_range s p → ctor_ptr s p = (p : Int) - (s : Int) - 1) ∧
      (ctor_ptr 0x1000 0x1040 = 0x1040 - 0x1000 - 1 ∧ ctor_ptr 0x1000 0x1040 = 0x3F ∧
        is_null (ctor_ptr 0x1000 0x1040) = false ∧
        to_byte_pointer 0x1000 (ctor_ptr 0x1000 0x1040) = 0x1040) := by
  refine ⟨?_, ?_, ?_, by decide⟩
  · intro h
    rw [h]
    exact pointer_to_offset_of_null s
  · intro h
    exact pointer_to_offset_of_ne s p h
  · intro h hr
    unfold ctor_ptr
    rw [pointer_to_offset_of_ne s p h]
    unfold in_offset_range at hr
    unfold to_ptrdiff
    omega

theorem ptr_ctor_stores_biased_distance_witness :
    (0x2040 : Nat) ≠ nullptr ∧ in_offset_range 0x3000 0x2040 ∧
      ctor_ptr 0x3000 0x2040 = -0xFC1 ∧ ctor_ptr 0x3000 nullptr = 0 :=
  ⟨by decide, by decide,
    (ptr_ctor_stores_biased_distance 0x3000 0x2040).2.2.1 (by decide) (by decide),
    (ptr_ctor_stores_biased_distance 0x3000 nullptr).1 rfl⟩

/-! ## The branch-free decode -/

/-- C11: for every storage address `s` and every offset `o`, with 64-bit wrapping
arithmetic, the mask-based `to_byte_pointer()` returns `0` when `o = 0` and `s + o + 1`
otherwise: exactly the value of `if is_null() then nullptr else this + offset + 1` given
in the code comment. -/
theorem to_byte_pointer_branch_free (s : Nat) (o : Int) :
    to_byte_pointer s o = to_byte_pointer_branching s o ∧
      to_byte_pointer s o = (if o = 0 then 0 else to_uintptr ((s : Int) + o + 1)) ∧
      to_byte_pointer s o =
        byte_ptr_add (byte_ptr_add s o) 1 &&& to_uintptr ((if is_null o then 1 else 0) - 1)
      := by
  refine ⟨?_, ?_, rfl⟩
  · by_cases h : o = 0
    · subst h
      rw [to_byte_pointer_of_null]
      rfl
    · rw [to_byte_pointer_of_ne s o h]
      unfold to_byte_pointer_branching
      simp only [is_null, nullptr_offset, beq_iff_eq, h, if_false]
      unfold byte_ptr_add to_uintptr
      omega
  · by_cases h : o = 0
    · subst h
      rw [to_byte_pointer_of_null]
      rfl
    · rw [to_byte_pointer_of_ne s o h, if_neg h]

/-! ## Copy assignment -/

/-- C12: for every two distinct pointers `A` at `sa` and `B` at `sb`, with the protect call
succeeding, `B = A` returns and the offset of `B` is then `A.offset + (sa - sb)` in
`std::ptrdiff_t` arithmetic, the value the copy constructor stores at `sb` from `A` (the
integer `A.offset + (sa - sb)` itself whenever that fits the type), whatever the previous
offset of `B` was, and the offset of `A` is unchanged. -/
theorem assign_rebases_like_copy_ctor (tx : Collaborator) (sa sb : Nat) (m : Machine)
    (hne : sb ≠ sa) (h : tx m.trace sb = true) :
    (assign tx sb sa m).1 = Outcome.returned ∧
      (assign tx sb sa m).2.mem sb = ctor_copy sb sa (m.mem sa) ∧
      (assign tx sb sa m).2.mem sb = to_ptrdiff (m.mem sa + ((sa : Int) - (sb : Int))) ∧
      (is_ptrdiff (m.mem sa + ((sa : Int) - (sb : Int))) →
        (assign tx sb sa m).2.mem sb = m.mem sa + ((sa : Int) - (sb : Int))) ∧
      (∀ v : Int,
        (assign tx sb sa { mem := Function.update m.mem sb v, trace := m.trace }).2.mem sb
          = (assign tx sb sa m).2.mem sb) ∧
      (assign tx sb sa m).2.mem sa = m.mem sa := by
  have hv : ∀ v : Int,
      tx ({ mem := Function.update m.mem sb v, trace := m.trace } : Machine).trace sb
        = true := fun _ => h
  have hwrap : ctor_copy sb sa (m.mem sa)
      = to_ptrdiff (m.mem sa + ((sa : Int) - (sb : Int))) := by
    unfold ctor_copy distance_between_self byte_ptr_sub to_ptrdiff
    omega
  refine ⟨?_, ?_, ?_, ?_, ?_, ?_⟩
  · rw [assign_of_protected tx sb sa m hne h]
  · rw [assign_of_protected tx sb sa m hne h]
    exact Function.update_same sb _ m.mem
  · rw [assign_of_protected tx sb sa m hne h, ← hwrap]
    exact Function.update_same sb _ m.mem
  · intro hr
    rw [assign_of_protected tx sb sa m hne h]
    dsimp only
    rw [Function.update_same]
    unfold is_ptrdiff at hr
    unfold distance_between_self byte_ptr_sub to_ptrdiff
    omega
  · intro v
    rw [assign_of_protected tx sb sa _ hne (hv v), assign_of_protected tx sb sa m hne h]
    dsimp only
    rw [Function.update_same, Function.update_same,
      Function.update_noteq (Ne.symm hne)]
  · rw [assign_of_protected tx sb sa m hne h]
    exact Function.update_noteq (Ne.symm hne) _ m.mem

theorem assign_rebases_like_copy_ctor_witness :
    (0x2000 : Nat) ≠ 0x1000 ∧
      tx_ok (machine2 0x1000 0x3F 0x2000 0x5).trace 0x2000 = true ∧
      (assign tx_ok 0x2000 0x1000 (machine2 0x1000 0x3F 0x2000 0x5)).2.mem 0x2000
        = 0x3F + (0x1000 - 0x2000) ∧
      (assign tx_ok 0x2000 0x1000 (machine2 0x1000 0x3F 0x2000 0x5)).2.mem 0x1000 = 0x3F :=
  ⟨by decide, rfl,
    (assign_rebases_like_copy_ctor tx_ok 0x1000 0x2000 (machine2 0x1000 0x3F 0x2000 0x5)
      (by decide) rfl).2.2.2.1 (by decide),
    (assign_rebases_like_copy_ctor tx_ok 0x1000 0x2000 (machine2 0x1000 0x3F 0x2000 0x5)
      (by decide) rfl).2.2.2.2.2⟩

/-! ## The address that cannot be encoded -/

/-- C13: for every storage address `s`, constructing a pointer at `s` from the address
`s + 1` stores offset `0`, so `is_null()` is true and it resolves to the null address;
and for every address `p`, `is_null()` after construction at `s` from `p` holds iff `p`
is null or `p = s + 1`. -/
theorem next_byte_not_representable (s p : Nat) (hs : s < WORD) (hp : p < WORD) :
    ctor_ptr s (s + 1) = 0 ∧
      is_null (ctor_ptr s (s + 1)) = true ∧
      to_byte_pointer s (ctor_ptr s (s + 1)) = nullptr ∧
      (is_null (ctor_ptr s p) = true ↔ (p = nullptr ∨ p = s + 1)) := by
  have hs1 : s < 2 ^ 64 := hs
  have hp1 : p < 2 ^ 64 := hp
  have h1 : ctor_ptr s (s + 1) = 0 := by
    unfold ctor_ptr
    rw [pointer_to_offset_of_ne s (s + 1) (Nat.succ_ne_zero s)]
    unfold to_ptrdiff
    omega
  refine ⟨h1, ?_, ?_, ?_⟩
  · rw [h1]; rfl
  · rw [h1]; exact to_byte_pointer_of_null s
  · simp only [is_null, nullptr_offset, beq_iff_eq, nullptr]
    by_cases h0 : p = 0
    · subst h0
      simp [ctor_ptr, pointer_to_offset_of_null]
    · unfold ctor_ptr
      rw [pointer_to_offset_of_ne s p h0]
      unfold to_ptrdiff
      omega

theorem next_byte_not_representable_witness :
    0x1000 < WORD ∧ 0x1001 < WORD ∧ ctor_ptr 0x1000 (0x1000 + 1) = 0 ∧
      (is_null (ctor_ptr 0x1000 0x1001) = true ↔ (0x1001 = nullptr ∨ 0x1001 = 0x1000 + 1)) :=
  ⟨by decide, by decide,
    (next_byte_not_representable 0x1000 0x1001 (by decide) (by decide)).1,
    (next_byte_not_representable 0x1000 0x1001 (by decide) (by decide)).2.2.2⟩

/-! ## Order of protection and mutation -/

/-- C14, counterexample: with a collaborator that refuses the registration, `swap` on the
distinct pointers at `0x1000` and `0x2000` issues one protect call, on `this`, not two. -/
theorem swap_refused_one_protect_call :
    (0x1000 : Nat) ≠ 0x2000 ∧
      events_added (machine2 0x1000 0x3F 0x2000 0x5)
        (swap tx_fail 0x1000 0x2000 (machine2 0x1000 0x3F 0x2000 0x5)).2
        = [Event.protect 0x1000] ∧
      protect_calls (events_added (machine2 0x1000 0x3F 0x2000 0x5)
        (swap tx_fail 0x1000 0x2000 (machine2 0x1000 0x3F 0x2000 0x5)).2) = [0x1000] ∧
      (protect_calls (events_added (machine2 0x1000 0x3F 0x2000 0x5)
        (swap tx_fail 0x1000 0x2000 (machine2 0x1000 0x3F 0x2000 0x5)).2)).length ≠ 2 := by
  decide

/-- C14 (amended): in the events produced by a write operation on distinct pointers, copy
assignment and `nullptr` assignment issue exactly one protect call, on the destination,
and the offset write, made only when that call succeeds, comes after it; `swap` issues a
protect call on `this` first and, when that one succeeds, a second one on `other`, exactly
two, and when both succeed they are followed by the two readings of the absolute addresses
and then the two offset writes; when the call on `this` fails it is the only one. -/
theorem protect_before_mutate (tx : Collaborator) (a b : Nat) (m : Machine) (hne : a ≠ b) :
    events_added m (assign tx a b m).2
        = Event.protect a ::
          (if tx m.trace a then [Event.store a (ctor_copy a b (m.mem b))] else []) ∧
      events_added m (assign_nullptr tx a m).2
        = Event.protect a :: (if tx m.trace a then [Event.store a nullptr_offset] else []) ∧
      events_added m (swap tx a b m).2
        = Event.protect a ::
          (if tx m.trace a then
            Event.protect b ::
              (if tx (m.trace ++ [Event.protect a]) b then
                [Event.resolve a, Event.resolve b,
                  Event.store a (pointer_to_offset a (to_byte_pointer b (m.mem b))),
                  Event.store b (pointer_to_offset b (to_byte_pointer a (m.mem a)))]
              else [])
          else []) ∧
      protect_calls (events_added m (assign tx a b m).2) = [a] ∧
      protect_calls (events_added m (assign_nullptr tx a m).2) = [a] ∧
      (tx m.trace a = true → protect_calls (events_added m (swap tx a b m).2) = [a, b]) ∧
      (tx m.trace a = false → protect_calls (events_added m (swap tx a b m).2) = [a]) := by
  have hassign : events_added m (assign tx a b m).2
      = Event.protect a ::
        (if tx m.trace a then [Event.store a (ctor_copy a b (m.mem b))] else []) := by
    cases h : tx m.trace a
    · rw [assign_of_refused tx a b m hne h]
      simp [events_added]
    · rw [assign_of_protected tx a b m hne h]
      simp [events_added, ctor_copy]
  have hnull : events_added m (assign_nullptr tx a m).2
      = Event.protect a :: (if tx m.trace a then [Event.store a nullptr_offset] else []) := by
    cases h : tx m.trace a
    · rw [assign_nullptr_of_refused tx a m h]
      simp [events_added]
    · rw [assign_nullptr_of_protected tx a m h]
      simp [events_added, nullptr_offset]
  have hswap : events_added m (swap tx a b m).2
      = Event.protect a ::
        (if tx m.trace a then
          Event.protect b ::
            (if tx (m.trace ++ [Event.protect a]) b then
              [Event.resolve a, Event.resolve b,
                Event.store a (pointer_to_offset a (to_byte_pointer b (m.mem b))),
                Event.store b (pointer_to_offset b (to_byte_pointer a (m.mem a)))]
            else [])
        else []) := by
    cases h1 : tx m.trace a
    · rw [swap_of_first_refused tx a b m hne h1]
      simp [events_added]
    · cases h2 : tx (m.trace ++ [Event.protect a]) b
      · rw [swap_of_second_refused tx a b m hne h1 h2]
        simp [events_added]
      · rw [swap_of_protected tx a b m hne h1 h2]
        simp [events_added]
  refine ⟨hassign, hnull, hswap, ?_, ?_, ?_, ?_⟩
  · rw [hassign]
    cases tx m.trace a <;> simp [protect_calls]
  · rw [hnull]
    cases tx m.trace a <;> simp [protect_calls]
  · intro h1
    rw [hswap, h1]
    cases tx (m.trace ++ [Event.protect a]) b <;> simp [protect_calls]
  · intro h1
    rw [hswap, h1]
    simp [protect_calls]

theorem protect_before_mutate_witness :
    (0x1000 : Nat) ≠ 0x2000 ∧
      tx_ok (machine2 0x1000 0x3F 0x2000 0x5).trace 0x1000 = true ∧
      protect_calls (events_added (machine2 0x1000 0x3F 0x2000 0x5)
        (swap tx_ok 0x1000 0x2000 (machine2 0x1000 0x3F 0x2000 0x5)).2) = [0x1000, 0x2000] ∧
      protect_calls (events_added (machine2 0x1000 0x3F 0x2000 0x5)
        (assign tx_ok 0x1000 0x2000 (machine2 0x1000 0x3F 0x2000 0x5)).2) = [0x1000] :=
  ⟨by decide, rfl,
    (protect_before_mutate tx_ok 0x1000 0x2000 (machine2 0x1000 0x3F 0x2000 0x5)
      (by decide)).2.2.2.2.2.1 rfl,
    (protect_before_mutate tx_ok 0x1000 0x2000 (machine2 0x1000 0x3F 0x2000 0x5)
      (by decide)).2.2.2.1⟩

/-! ## Distance between two pointers -/

/-- C15: for all non-null pointers `A` (stored at `sa`) and `B` (stored at `sb`),
`distance_between(A, B)` is `B.to_byte_pointer() - A.to_byte_pointer()`, which is
`(sb + B.offset) - (sa + A.offset)`, in `std::ptrdiff_t` arithmetic (the integers
themselves whenever they fit the type); it is `0` when `B` is a copy of `A`, and
`distance_between(B, A) = -distance_between(A, B)`. -/
theorem distance_consistency (sa sb : Nat) (oa ob : Int)
    (ha : is_null oa = false) (hb : is_null ob = false) :
    distance_between sa oa sb ob
        = byte_ptr_sub (to_byte_pointer sb ob) (to_byte_pointer sa oa) ∧
      (is_ptrdiff ((to_byte_pointer sb ob : Int) - (to_byte_pointer sa oa : Int)) →
        distance_between sa oa sb ob
          = (to_byte_pointer sb ob : Int) - (to_byte_pointer sa oa : Int)) ∧
      distance_between sa oa sb ob
        = to_ptrdiff (((sb : Int) + ob) - ((sa : Int) + oa)) ∧
      (is_ptrdiff (((sb : Int) + ob) - ((sa : Int) + oa)) →
        distance_between sa oa sb ob = ((sb : Int) + ob) - ((sa : Int) + oa)) ∧
      (ob = ctor_copy sb sa oa → distance_between sa oa sb ob = 0) ∧
      distance_between sb ob sa oa = to_ptrdiff (-distance_between sa oa sb ob) ∧
      (distance_between sa oa sb ob ≠ -(2 : Int) ^ 63 →
        distance_between sb ob sa oa = -distance_between sa oa sb ob) := by
  have hoa : oa ≠ 0 := by
    intro h; subst h; simp [is_null, nullptr_offset] at ha
  have hob : ob ≠ 0 := by
    intro h; subst h; simp [is_null, nullptr_offset] at hb
  have hA := to_byte_pointer_of_ne sa oa hoa
  have hB := to_byte_pointer_of_ne sb ob hob
  refine ⟨rfl, ?_, ?_, ?_, ?_, ?_, ?_⟩
  · intro hr
    unfold is_ptrdiff at hr
    unfold distance_between byte_ptr_sub to_ptrdiff
    omega
  · unfold distance_between byte_ptr_sub
    rw [hA, hB]
    unfold to_uintptr to_ptrdiff
    omega
  · intro hr
    unfold is_ptrdiff at hr
    unfold distance_between byte_ptr_sub
    rw [hA, hB]
    unfold to_uintptr to_ptrdiff
    omega
  · intro hcopy
    unfold ctor_copy distance_between_self byte_ptr_sub to_ptrdiff at hcopy
    unfold distance_between byte_ptr_sub
    rw [hA, hB]
    unfold to_uintptr to_ptrdiff
    omega
  · unfold distance_between byte_ptr_sub to_ptrdiff
    omega
  · intro hmin
    unfold distance_between byte_ptr_sub to_ptrdiff at hmin ⊢
    omega

theorem distance_consistency_witness :
    is_null 0x3F = false ∧ is_null 0x5 = false ∧
      distance_between 0x1000 0x3F 0x2000 0x5 = (0x2000 + 0x5) - (0x1000 + 0x3F) ∧
      distance_between 0x2000 0x5 0x1000 0x3F = -distance_between 0x1000 0x3F 0x2000 0x5 ∧
      distance_between 0x1000 0x3F 0x2000 (ctor_copy 0x2000 0x1000 0x3F) = 0 :=
  ⟨by decide, by decide,
    (distance_consistency 0x1000 0x2000 0x3F 0x5 (by decide) (by decide)).2.2.2.1
      (by decide),
    (distance_consistency 0x1000 0x2000 0x3F 0x5 (by decide) (by decide)).2.2.2.2.2.2
      (by decide),
    (distance_consistency 0x1000 0x2000 0x3F (ctor_copy 0x2000 0x1000 0x3F) (by decide)
      (by decide)).2.2.2.2.1 rfl⟩

/-! ## Nullness under copying -/

theorem ctor_copy_null_iff (sa sb : Nat) (o : Int) (ho : o ≠ 0) :
    ctor_copy sb sa o = 0 ↔ to_byte_pointer sa o = byte_ptr_add sb 1 := by
  rw [to_byte_pointer_of_ne sa o ho]
  unfold ctor_copy distance_between_self byte_ptr_sub byte_ptr_add to_uintptr to_ptrdiff
  omega

/-- C16, counterexample: the non-null pointer at `0x1000` holding offset `0x1000` (target
`0x2001`) copied to `0x2000`, by the copy constructor or by copy assignment with the
protect call succeeding, is null; and the null pointer at `0x1000` copied to `0x2000` is
not null and resolves to `0x1001`. -/
theorem copy_changes_nullness :
    is_null 0x1000 = false ∧
      is_null (ctor_copy 0x2000 0x1000 0x1000) = true ∧
      (assign tx_ok 0x2000 0x1000 (machine2 0x1000 0x1000 0x2000 0x5)).1
        = Outcome.returned ∧
      is_null ((assign tx_ok 0x2000 0x1000 (machine2 0x1000 0x1000 0x2000 0x5)).2.mem 0x2000)
        = true ∧
      is_null 0 = true ∧
      is_null (ctor_copy 0x2000 0x1000 0) = false ∧
      to_byte_pointer 0x2000 (ctor_copy 0x2000 0x1000 0) = 0x1001 ∧
      is_null ((assign tx_ok 0x2000 0x1000 (machine2 0x1000 0 0x2000 0x5)).2.mem 0x2000)
        = false := by
  decide

/-- C16 (amended): for every non-null pointer `A` at `sa` resolving to `T` and every
storage address `sb`, the pointer `B` obtained at `sb` by copy construction from `A`, or
by copy assignment `B = A` between distinct objects with the protect call succeeding, is
null iff `T` is the address `sb + 1`; so `B.is_null()` equals `A.is_null()` whenever
`T` is not `sb + 1`. -/
theorem copy_keeps_non_null (tx : Collaborator) (sa sb : Nat) (m : Machine)
    (hne : sb ≠ sa) (h : tx m.trace sb = true) (hA : is_null (m.mem sa) = false) :
    (is_null (ctor_copy sb sa (m.mem sa)) = true
        ↔ to_byte_pointer sa (m.mem sa) = byte_ptr_add sb 1) ∧
      (assign tx sb sa m).1 = Outcome.returned ∧
      (is_null ((assign tx sb sa m).2.mem sb) = true
        ↔ to_byte_pointer sa (m.mem sa) = byte_ptr_add sb 1) ∧
      (to_byte_pointer sa (m.mem sa) ≠ byte_ptr_add sb 1 →
        is_null (ctor_copy sb sa (m.mem sa)) = is_null (m.mem sa) ∧
          is_null ((assign tx sb sa m).2.mem sb) = is_null (m.mem sa)) := by
  have ho : m.mem sa ≠ 0 := by
    intro h0; rw [h0] at hA; simp [is_null, nullptr_offset] at hA
  have hiff := ctor_copy_null_iff sa sb (m.mem sa) ho
  have hmem : (assign tx sb sa m).2.mem sb = ctor_copy sb sa (m.mem sa) := by
    rw [assign_of_protected tx sb sa m hne h]
    exact Function.update_same sb _ m.mem
  have hnull : is_null (ctor_copy sb sa (m.mem sa)) = true
      ↔ to_byte_pointer sa (m.mem sa) = byte_ptr_add sb 1 := by
    rw [← hiff]
    simp [is_null, nullptr_offset]
  refine ⟨hnull, ?_, ?_, ?_⟩
  · rw [assign_of_protected tx sb sa m hne h]
  · rw [hmem]; exact hnull
  · intro hT
    have hB : is_null (ctor_copy sb sa (m.mem sa)) = false := by
      cases hc : is_null (ctor_copy sb sa (m.mem sa))
      · rfl
      · exact absurd (hnull.mp hc) hT
    rw [hmem, hB, hA]
    exact ⟨rfl, rfl⟩

theorem copy_keeps_non_null_witness :
    (0x2000 : Nat) ≠ 0x1000 ∧
      is_null ((machine2 0x1000 0x3F 0x2000 0x5).mem 0x1000) = false ∧
      to_byte_pointer 0x1000 ((machine2 0x1000 0x3F 0x2000 0x5).mem 0x1000)
        ≠ byte_ptr_add 0x2000 1 ∧
      is_null (ctor_copy 0x2000 0x1000 ((machine2 0x1000 0x3F 0x2000 0x5).mem 0x1000))
        = is_null ((machine2 0x1000 0x3F 0x2000 0x5).mem 0x1000) ∧
      is_null ((assign tx_ok 0x2000 0x1000 (machine2 0x1000 0x3F 0x2000 0x5)).2.mem 0x2000)
        = is_null ((machine2 0x1000 0x3F 0x2000 0x5).mem 0x1000) :=
  ⟨by decide, by decide, by decide,
    (copy_keeps_non_null tx_ok 0x1000 0x2000 (machine2 0x1000 0x3F 0x2000 0x5)
      (by decide) rfl (by decide)).2.2.2 (by decide)⟩

/-! ## Re-basing as arithmetic -/

/-- C17: for every offset `o` and storage addresses `sa`, `sb`, `sc`, copying a pointer
from `sa` to `sb` and then from `sb` to `sc` stores the same offset as copying it directly
from `sa` to `sc`, and copying from `sa` to `sb` and back to `sa` restores `o` exactly. -/
theorem rebase_composes (o : Int) (sa sb sc : Nat) (ho : is_ptrdiff o) :
    ctor_copy sc sb (ctor_copy sb sa o) = ctor_copy sc sa o ∧
      ctor_copy sa sb (ctor_copy sb sa o) = o := by
  unfold is_ptrdiff at ho
  refine ⟨?_, ?_⟩
  · unfold ctor_copy distance_between_self byte_ptr_sub to_ptrdiff
    omega
  · unfold ctor_copy distance_between_self byte_ptr_sub to_ptrdiff
    omega

theorem rebase_composes_witness :
    is_ptrdiff 0x3F ∧
      ctor_copy 0x3000 0x2000 (ctor_copy 0x2000 0x1000 0x3F) = ctor_copy 0x3000 0x1000 0x3F ∧
      ctor_copy 0x1000 0x2000 (ctor_copy 0x2000 0x1000 0x3F) = 0x3F :=
  ⟨by decide, rebase_composes 0x3F 0x1000 0x2000 0x3000 (by decide)⟩

/-! ## Swapping twice -/

/-- Encoding what `to_byte_pointer()` decoded gives the offset back, for a null pointer
and for one resolving to a non-zero address. -/
theorem pointer_to_offset_to_byte_pointer (s : Nat) (o : Int) (ho : is_ptrdiff o)
    (h : o = 0 ∨ to_byte_pointer s o ≠ 0) :
    pointer_to_offset s (to_byte_pointer s o) = o := by
  by_cases h0 : o = 0
  · subst h0
    rw [to_byte_pointer_of_null, pointer_to_offset_of_null]
  · have hT : to_byte_pointer s o ≠ 0 := by
      rcases h with h | h
      · exact absurd h h0
      · exact h
    rw [pointer_to_offset_of_ne s _ hT]
    rw [to_byte_pointer_of_ne s o h0] at hT ⊢
    unfold is_ptrdiff at ho
    unfold to_uintptr at hT ⊢
    unfold to_ptrdiff
    omega

/-- C18: for every two distinct pointers `A` at `sa` and `B` at `sb`, each either null or
resolving to a non-zero address different from `sa + 1` and `sb + 1`, and with all protect
calls succeeding, performing `A.swap(B)` twice returns both times and restores the raw
offsets of both `A` and `B` to their original values. -/
theorem swap_twice_restores (tx : Collaborator) (sa sb : Nat) (m : Machine)
    (hsa : sa < WORD) (hsb : sb < WORD) (hne : sa ≠ sb)
    (hoa : is_ptrdiff (m.mem sa)) (hob : is_ptrdiff (m.mem sb))
    (hA : is_null (m.mem sa) = true ∨
      (to_byte_pointer sa (m.mem sa) ≠ 0 ∧ to_byte_pointer sa (m.mem sa) ≠ sa + 1 ∧
        to_byte_pointer sa (m.mem sa) ≠ sb + 1))
    (hB : is_null (m.mem sb) = true ∨
      (to_byte_pointer sb (m.mem sb) ≠ 0 ∧ to_byte_pointer sb (m.mem sb) ≠ sa + 1 ∧
        to_byte_pointer sb (m.mem sb) ≠ sb + 1))
    (h1 : tx m.trace sa = true) (h2 : tx (m.trace ++ [Event.protect sa]) sb = true)
    (h3 : tx (swap tx sa sb m).2.trace sa = true)
    (h4 : tx ((swap tx sa sb m).2.trace ++ [Event.protect sa]) sb = true) :
    (swap tx sa sb m).1 = Outcome.returned ∧
      (swap tx sa sb (swap tx sa sb m).2).1 = Outcome.returned ∧
      (swap tx sa sb (swap tx sa sb m).2).2.mem sa = m.mem sa ∧
      (swap tx sa sb (swap tx sa sb m).2).2.mem sb = m.mem sb := by
  have hsa1 : sa < 2 ^ 64 := hsa
  have hsb1 : sb < 2 ^ 64 := hsb
  -- the targets before the first swap
  have hTa : to_byte_pointer sa (m.mem sa) ≠ sb + 1 := by
    rcases hA with hA | hA
    · have h0 : m.mem sa = 0 := by simpa [is_null, nullptr_offset] using hA
      rw [h0, to_byte_pointer_of_null]
      exact (Nat.succ_ne_zero sb).symm
    · exact hA.2.2
  have hTb : to_byte_pointer sb (m.mem sb) ≠ sa + 1 := by
    rcases hB with hB | hB
    · have h0 : m.mem sb = 0 := by simpa [is_null, nullptr_offset] using hB
      rw [h0, to_byte_pointer_of_null]
      exact (Nat.succ_ne_zero sa).symm
    · exact hB.2.1
  have hA0 : m.mem sa = 0 ∨ to_byte_pointer sa (m.mem sa) ≠ 0 := by
    rcases hA with hA | hA
    · left; simpa [is_null, nullptr_offset] using hA
    · right; exact hA.1
  have hB0 : m.mem sb = 0 ∨ to_byte_pointer sb (m.mem sb) ≠ 0 := by
    rcases hB with hB | hB
    · left; simpa [is_null, nullptr_offset] using hB
    · right; exact hB.1
  -- the memory after the first swap
  have e1 := swap_of_protected tx sa sb m hne h1 h2
  have m1a : (swap tx sa sb m).2.mem sa
      = pointer_to_offset sa (to_byte_pointer sb (m.mem sb)) := by
    rw [e1]
    dsimp only
    rw [Function.update_noteq hne, Function.update_same]
  have m1b : (swap tx sa sb m).2.mem sb
      = pointer_to_offset sb (to_byte_pointer sa (m.mem sa)) := by
    rw [e1]
    dsimp only
    rw [Function.update_same]
  -- the second swap
  have e2 := swap_of_protected tx sa sb (swap tx sa sb m).2 hne h3 h4
  refine ⟨by rw [e1], by rw [e2], ?_, ?_⟩
  · rw [e2]
    dsimp only
    rw [Function.update_noteq hne, Function.update_same, m1b,
      to_byte_pointer_pointer_to_offset sb _ hsb1 (to_byte_pointer_lt _ _) hTa]
    exact pointer_to_offset_to_byte_pointer sa (m.mem sa) hoa hA0
  · rw [e2]
    dsimp only
    rw [Function.update_same, m1a,
      to_byte_pointer_pointer_to_offset sa _ hsa1 (to_byte_pointer_lt _ _) hTb]
    exact pointer_to_offset_to_byte_pointer sb (m.mem sb) hob hB0

theorem swap_twice_restores_witness :
    (0x1000 : Nat) ≠ 0x2000 ∧
      (swap tx_ok 0x1000 0x2000 (machine2 0x1000 0x3F 0x2000 0)).2.mem 0x1000 = 0 ∧
      (swap tx_ok 0x1000 0x2000 (machine2 0x1000 0x3F 0x2000 0)).2.mem 0x2000 = -0xFC1 ∧
      (swap tx_ok 0x1000 0x2000
        (swap tx_ok 0x1000 0x2000 (machine2 0x1000 0x3F 0x2000 0)).2).2.mem 0x1000 = 0x3F ∧
      (swap tx_ok 0x1000 0x2000
        (swap tx_ok 0x1000 0x2000 (machine2 0x1000 0x3F 0x2000 0)).2).2.mem 0x2000 = 0 :=
  ⟨by decide, by decide, by decide,
    (swap_twice_restores tx_ok 0x1000 0x2000 (machine2 0x1000 0x3F 0x2000 0)
      (by decide) (by decide) (by decide) (by decide) (by decide)
      (Or.inr (by decide)) (Or.inl (by decide)) rfl rfl rfl rfl).2.2.1,
    (swap_twice_restores tx_ok 0x1000 0x2000 (machine2 0x1000 0x3F 0x2000 0)
      (by decide) (by decide) (by decide) (by decide) (by decide)
      (Or.inr (by decide)) (Or.inl (by decide)) rfl rfl rfl rfl).2.2.2⟩

end pmem.obj.experimental
